import Mathlib

/-!
Verification of the Discord auto-role bot (`src/index.js`).

The program registers a single `GuildMemberAdd` handler that:
guards on the target guild id, skips members that already hold the
auto-role, resolves the role from the guild cache (falling back to a
fetch whose rejection is mapped to `null`), and then performs one
fallible `member.roles.add` call inside a try/catch that logs failures.

The shallow embedding below turns the handler into a pure function from
the configuration, the member snapshot, and the results of the two
external fallible calls (role fetch, role add) to an explicit record of
effects: how many fetch calls and add calls happened, which log lines
were emitted, and the member's resulting role set.  The try/catch is
embedded as an inner body returning `Except` plus an outer catch that
converts an error into a logged message.
-/

namespace AutoRoleBot

/-- A Discord role object: its snowflake id and display name. -/
structure Role where
  id : String
  name : String
deriving Repr, DecidableEq

/-- A guild snapshot: id, name, and the locally cached role list
(`guild.roles.cache`). -/
structure Guild where
  id : String
  name : String
  rolesCache : List Role
deriving Repr, DecidableEq

/-- A member snapshot delivered with the join event.  The guild
reference is optional because the handler accesses it with the optional
chain `member?.guild?.id`.  `roleIds` is the key set of
`member.roles.cache`. -/
structure Member where
  guild : Option Guild
  userTag : String
  roleIds : List String
deriving Repr, DecidableEq

/-- The process-wide configuration constants read once at startup. -/
structure Config where
  TARGET_GUILD_ID : String
  AUTO_ROLE_ID : String
deriving Repr, DecidableEq

/-- Results of the two fallible external calls the handler can make, fixed
per invocation: what `guild.roles.fetch(AUTO_ROLE_ID).catch(() => null)`
resolves to (the catch maps a rejection to `none`), and whether
`member.roles.add` succeeds or rejects with an error message. -/
structure Env where
  fetchRole : Option Role
  addRoleResult : Except String Unit
deriving Repr

/-- Console output the handler can produce, one constructor per call site:
the `console.warn` for a missing role, the `console.log` for a successful
assignment, and the `console.error` in the catch block. -/
inductive LogEntry where
  | warnRoleNotFound (roleId : String) (guildName : String)
  | assigned (roleName : String) (userTag : String)
  | addFailed (err : String)
deriving Repr, DecidableEq

/-- The observable effects of one handler invocation. -/
structure Effects where
  fetchCalls : Nat
  addCalls : List (String × String)
  logs : List LogEntry
  memberRoles : List String
deriving Repr, DecidableEq

/-- The effects of an invocation that returns on a guard: no external
call, no log line, the member's role set untouched. -/
def noEffects (member : Member) : Effects :=
  { fetchCalls := 0, addCalls := [], logs := [], memberRoles := member.roleIds }

/-- The audit reason string passed to `member.roles.add`. -/
def addReason : String := "Auto-role assignment on member join"

/-- Role resolution: `member.guild.roles.cache.get(AUTO_ROLE_ID) ||
await member.guild.roles.fetch(AUTO_ROLE_ID).catch(() => null)`.
Returns the number of fetch calls made (0 on cache hit, 1 on miss) and
the resolved role, if any. -/
def resolveRole (cfg : Config) (env : Env) (g : Guild) : Nat × Option Role :=
  match g.rolesCache.find? (fun r => r.id == cfg.AUTO_ROLE_ID) with
  | some r => (0, some r)
  | none => (1, env.fetchRole)

/-- The body of the `try` block.  Returns the effects accumulated so far
together with `Except.ok` if the body ran to completion and
`Except.error e` if the awaited `member.roles.add` call rejected with
`e` (the only uncaught-throw site inside the `try`). -/
def tryBody (cfg : Config) (env : Env) (member : Member) :
    Effects × Except String Unit :=
  match member.guild with
  | none => (noEffects member, Except.ok ())
  | some g =>
    if g.id ≠ cfg.TARGET_GUILD_ID then
      (noEffects member, Except.ok ())
    else if member.roleIds.contains cfg.AUTO_ROLE_ID then
      (noEffects member, Except.ok ())
    else
      match resolveRole cfg env g with
      | (n, none) =>
        ({ noEffects member with
            fetchCalls := n
            logs := [LogEntry.warnRoleNotFound cfg.AUTO_ROLE_ID g.name] },
          Except.ok ())
      | (n, some r) =>
        match env.addRoleResult with
        | Except.error e =>
          ({ fetchCalls := n, addCalls := [(r.id, addReason)],
             logs := [], memberRoles := member.roleIds },
            Except.error e)
        | Except.ok _ =>
          ({ fetchCalls := n, addCalls := [(r.id, addReason)],
             logs := [LogEntry.assigned r.name member.userTag],
             memberRoles := r.id :: member.roleIds },
            Except.ok ())

/-- The full `GuildMemberAdd` handler: the try body wrapped in the catch
that logs `Failed to assign auto-role:` with the error and swallows it.
The handler is a total function into `Effects`: no error escapes it. -/
def guildMemberAdd (cfg : Config) (env : Env) (member : Member) : Effects :=
  match tryBody cfg env member with
  | (eff, Except.ok _) => eff
  | (eff, Except.error e) => { eff with logs := eff.logs ++ [LogEntry.addFailed e] }

/-- A log entry reporting a failure: the missing-role warning or the
catch-block error.  The success log is not a failure. -/
def LogEntry.isFailure : LogEntry → Bool
  | LogEntry.assigned _ _ => false
  | _ => true

/-! ## Startup -/

/-- The relevant slice of `process.env`: each variable is either unset
(`none`) or set to a string (possibly empty). -/
structure ProcessEnv where
  DISCORD_TOKEN : Option String
  TARGET_GUILD_ID : Option String
  AUTO_ROLE_ID : Option String
deriving Repr, DecidableEq

/-- JavaScript truthiness of an environment-variable value: `undefined`
and the empty string are falsy, every other string is truthy. -/
def jsTruthy : Option String → Bool
  | none => false
  | some s => !s.isEmpty

/-- `process.env.X || d`: the variable's value when truthy, else the
default `d`. -/
def envOr : Option String → String → String
  | none, d => d
  | some s, d => if s.isEmpty then d else s

/-- Source default for `TARGET_GUILD_ID`. -/
def defaultGuildId : String := "1443680950952394784"

/-- Source default for `AUTO_ROLE_ID`. -/
def defaultRoleId : String := "1444126866746245253"

/-- What startup produces: either the thrown fatal error (before any
client is created or login attempted), or a running process holding the
immutable configuration and the token passed to `client.login`. -/
inductive StartupResult where
  | fatal (msg : String)
  | started (cfg : Config) (loginToken : String)
deriving Repr, DecidableEq

/-- Module top level of `src/index.js`: read the three variables, apply
the `||` defaults, throw if the token is falsy, otherwise create the
client and log in with the token. -/
def startup (penv : ProcessEnv) : StartupResult :=
  let tgid := envOr penv.TARGET_GUILD_ID defaultGuildId
  let arid := envOr penv.AUTO_ROLE_ID defaultRoleId
  if jsTruthy penv.DISCORD_TOKEN then
    StartupResult.started { TARGET_GUILD_ID := tgid, AUTO_ROLE_ID := arid }
      (envOr penv.DISCORD_TOKEN "")
  else
    StartupResult.fatal "Missing DISCORD_TOKEN in environment."

/-! ## Concrete instances used by witnesses and sanity checks -/

/-- The preconfigured auto-role. -/
def roleR : Role := { id := defaultRoleId, name := "Member" }

/-- The preconfigured target guild, auto-role cached. -/
def guildG : Guild := { id := defaultGuildId, name := "Vortex", rolesCache := [roleR] }

/-- The default configuration. -/
def cfg0 : Config := { TARGET_GUILD_ID := defaultGuildId, AUTO_ROLE_ID := defaultRoleId }

/-- External calls all succeed. -/
def envOk : Env := { fetchRole := some roleR, addRoleResult := Except.ok () }

/-- The add call rejects. -/
def envAddFails : Env := { fetchRole := some roleR, addRoleResult := Except.error "Missing Permissions" }

/-- Fetch resolves to nothing and the guild cache is empty. -/
def envNoRole : Env := { fetchRole := none, addRoleResult := Except.ok () }

/-- A fresh member joining the target guild without the role. -/
def memberM : Member := { guild := some guildG, userTag := "newuser#0001", roleIds := [] }

/-- A member of a different guild. -/
def memberOther : Member :=
  { guild := some { id := "999", name := "Elsewhere", rolesCache := [roleR] },
    userTag := "visitor#0002", roleIds := [] }

/-- A member that already holds the auto-role. -/
def memberHas : Member := { guild := some guildG, userTag := "old#0003", roleIds := [defaultRoleId] }

/-- The target guild with an empty role cache, forcing the fetch path. -/
def guildEmptyCache : Guild := { id := defaultGuildId, name := "Vortex", rolesCache := [] }

/-- A fresh member joining the target guild whose role cache is empty. -/
def memberMiss : Member := { guild := some guildEmptyCache, userTag := "newuser#0004", roleIds := [] }

/-- A member snapshot with no guild reference at all. -/
def memberNoGuild : Member := { guild := none, userTag := "ghost#0005", roleIds := [] }

/-- An environment whose token variable is set but empty, other
variables set. -/
def peEmptyToken : ProcessEnv :=
  { DISCORD_TOKEN := some "", TARGET_GUILD_ID := some "g", AUTO_ROLE_ID := some "r" }

/-- An environment with no variables set at all. -/
def peUnset : ProcessEnv :=
  { DISCORD_TOKEN := none, TARGET_GUILD_ID := none, AUTO_ROLE_ID := none }

/-- An environment whose token is set and nonempty, other variables
unset. -/
def peTokenOnly : ProcessEnv :=
  { DISCORD_TOKEN := some "token", TARGET_GUILD_ID := none, AUTO_ROLE_ID := none }

/-- An environment whose token is set but empty, other variables unset. -/
def peEmptyTokenUnsetVars : ProcessEnv :=
  { DISCORD_TOKEN := some "", TARGET_GUILD_ID := none, AUTO_ROLE_ID := none }

example : (guildMemberAdd cfg0 envOk memberM).addCalls = [(defaultRoleId, addReason)] := by decide
example : (guildMemberAdd cfg0 envOk memberM).memberRoles = [defaultRoleId] := by decide
example : guildMemberAdd cfg0 envOk memberOther = noEffects memberOther := by decide
example : guildMemberAdd cfg0 envOk memberHas = noEffects memberHas := by decide
example : (guildMemberAdd cfg0 envNoRole memberMiss).logs
    = [LogEntry.warnRoleNotFound defaultRoleId "Vortex"] := by decide
example : (guildMemberAdd cfg0 envAddFails memberM).logs
    = [LogEntry.addFailed "Missing Permissions"] := by decide
example : startup { DISCORD_TOKEN := none, TARGET_GUILD_ID := none, AUTO_ROLE_ID := none }
    = StartupResult.fatal "Missing DISCORD_TOKEN in environment." := by decide
example : startup { DISCORD_TOKEN := some "tok", TARGET_GUILD_ID := none, AUTO_ROLE_ID := none }
    = StartupResult.started cfg0 "tok" := by decide

/-! ## Helper lemmas -/

/-- The fetch call in the source always targets `AUTO_ROLE_ID`, so the
Discord API can only resolve it to a role with that id.  This is the
well-formedness condition on the modelled fetch result. -/
def Env.fetchFaithful (cfg : Config) (env : Env) : Prop :=
  ∀ r, env.fetchRole = some r → r.id = cfg.AUTO_ROLE_ID

/-- Under a faithful fetch, any role the resolution step yields carries
the configured role id: a cache hit satisfies the lookup predicate, a
fetch result satisfies the fetch contract. -/
theorem resolveRole_id (cfg : Config) (env : Env) (g : Guild)
    (hFetch : Env.fetchFaithful cfg env)
    {r : Role} (h : (resolveRole cfg env g).2 = some r) :
    r.id = cfg.AUTO_ROLE_ID := by
  unfold resolveRole at h
  cases hf : g.rolesCache.find? (fun x => x.id == cfg.AUTO_ROLE_ID) with
  | none =>
    rw [hf] at h
    exact hFetch r h
  | some r0 =>
    rw [hf] at h
    simp only [Option.some.injEq] at h
    subst h
    have hp := List.find?_some hf
    simpa using hp

/-- The handler's effects when the guard path is not taken: a case
enumeration of `tryBody` on the main path.  Used to drive the per-claim
proofs. -/
theorem tryBody_main (cfg : Config) (env : Env) (member : Member) (g : Guild)
    (hg : member.guild = some g) (ht : g.id = cfg.TARGET_GUILD_ID)
    (hnot : member.roleIds.contains cfg.AUTO_ROLE_ID = false) :
    tryBody cfg env member =
      match resolveRole cfg env g with
      | (n, none) =>
        ({ noEffects member with
            fetchCalls := n
            logs := [LogEntry.warnRoleNotFound cfg.AUTO_ROLE_ID g.name] },
          Except.ok ())
      | (n, some r) =>
        match env.addRoleResult with
        | Except.error e =>
          ({ fetchCalls := n, addCalls := [(r.id, addReason)],
             logs := [], memberRoles := member.roleIds },
            Except.error e)
        | Except.ok _ =>
          ({ fetchCalls := n, addCalls := [(r.id, addReason)],
             logs := [LogEntry.assigned r.name member.userTag],
             memberRoles := r.id :: member.roleIds },
            Except.ok ()) := by
  unfold tryBody
  rw [hg]
  dsimp only
  rw [if_neg (by simp [ht]), if_neg (by simpa using hnot)]

/-- When the guild guard rejects (guild missing or not the target), the
whole handler is a no-op. -/
theorem guildMemberAdd_guard (cfg : Config) (env : Env) (member : Member)
    (h : ∀ g, member.guild = some g → g.id ≠ cfg.TARGET_GUILD_ID) :
    guildMemberAdd cfg env member = noEffects member := by
  unfold guildMemberAdd tryBody
  cases hg : member.guild with
  | none => rfl
  | some g =>
    dsimp only
    rw [if_pos (h g hg)]

/-- When the member already holds the auto-role, the whole handler is a
no-op. -/
theorem guildMemberAdd_hasRole (cfg : Config) (env : Env) (member : Member)
    (h : member.roleIds.contains cfg.AUTO_ROLE_ID = true) :
    guildMemberAdd cfg env member = noEffects member := by
  unfold guildMemberAdd tryBody
  cases hg : member.guild with
  | none => rfl
  | some g =>
    dsimp only
    by_cases hid : g.id ≠ cfg.TARGET_GUILD_ID
    · rw [if_pos hid]
    · rw [if_neg hid, if_pos h]

/-- The resolution step issues at most one fetch call. -/
theorem resolveRole_fst_le (cfg : Config) (env : Env) (g : Guild) :
    (resolveRole cfg env g).1 ≤ 1 := by
  unfold resolveRole
  cases hf : g.rolesCache.find? (fun x => x.id == cfg.AUTO_ROLE_ID) <;> simp

/-- Main-path evaluation, role resolution empty: the handler emits the
missing-role warning and nothing else. -/
theorem guildMemberAdd_main_none (cfg : Config) (env : Env) (member : Member)
    (g : Guild) (n : Nat)
    (hg : member.guild = some g) (ht : g.id = cfg.TARGET_GUILD_ID)
    (hnot : member.roleIds.contains cfg.AUTO_ROLE_ID = false)
    (hrr : resolveRole cfg env g = (n, none)) :
    guildMemberAdd cfg env member =
      { fetchCalls := n, addCalls := [],
        logs := [LogEntry.warnRoleNotFound cfg.AUTO_ROLE_ID g.name],
        memberRoles := member.roleIds } := by
  unfold guildMemberAdd
  rw [tryBody_main cfg env member g hg ht hnot, hrr]
  rfl

/-- Main-path evaluation, role resolved and add call succeeding: one add
call, the success log, and the role id joining the member's role set. -/
theorem guildMemberAdd_main_ok (cfg : Config) (env : Env) (member : Member)
    (g : Guild) (n : Nat) (r : Role)
    (hg : member.guild = some g) (ht : g.id = cfg.TARGET_GUILD_ID)
    (hnot : member.roleIds.contains cfg.AUTO_ROLE_ID = false)
    (hrr : resolveRole cfg env g = (n, some r))
    (ha : env.addRoleResult = Except.ok ()) :
    guildMemberAdd cfg env member =
      { fetchCalls := n, addCalls := [(r.id, addReason)],
        logs := [LogEntry.assigned r.name member.userTag],
        memberRoles := r.id :: member.roleIds } := by
  unfold guildMemberAdd
  rw [tryBody_main cfg env member g hg ht hnot, hrr]
  dsimp only
  rw [ha]

/-- Main-path evaluation, role resolved and add call rejecting: one add
call, no role change, and the catch block's error log. -/
theorem guildMemberAdd_main_error (cfg : Config) (env : Env) (member : Member)
    (g : Guild) (n : Nat) (r : Role) (e : String)
    (hg : member.guild = some g) (ht : g.id = cfg.TARGET_GUILD_ID)
    (hnot : member.roleIds.contains cfg.AUTO_ROLE_ID = false)
    (hrr : resolveRole cfg env g = (n, some r))
    (ha : env.addRoleResult = Except.error e) :
    guildMemberAdd cfg env member =
      { fetchCalls := n, addCalls := [(r.id, addReason)],
        logs := [LogEntry.addFailed e],
        memberRoles := member.roleIds } := by
  unfold guildMemberAdd
  rw [tryBody_main cfg env member g hg ht hnot, hrr]
  dsimp only
  rw [ha]
  rfl

/-! ## Claims -/

/-- Claim C3: for every join event whose guild id does not equal the
configured target guild id (including a missing guild reference), the
handler returns immediately with no side effect: the result equals the
no-op effects record, so no role-mutation call, no fetch call and no log
output occurs and the member's role set is unchanged. -/
theorem C3_foreign_guild_noop (cfg : Config) (env : Env) (member : Member)
    (h : ∀ g, member.guild = some g → g.id ≠ cfg.TARGET_GUILD_ID) :
    guildMemberAdd cfg env member = noEffects member
    ∧ (guildMemberAdd cfg env member).addCalls = []
    ∧ (guildMemberAdd cfg env member).fetchCalls = 0 := by
  rw [guildMemberAdd_guard cfg env member h]
  exact ⟨rfl, rfl, rfl⟩

/-- Witness for C3 at a member joining a non-target guild. -/
theorem C3_foreign_guild_noop_witness :
    guildMemberAdd cfg0 envOk memberOther = noEffects memberOther
    ∧ (guildMemberAdd cfg0 envOk memberOther).addCalls = []
    ∧ (guildMemberAdd cfg0 envOk memberOther).fetchCalls = 0 :=
  C3_foreign_guild_noop cfg0 envOk memberOther (by
    intro g hg
    simp only [memberOther, Option.some.injEq] at hg
    subst hg
    decide)

/-- Claim C9: for every delivered member snapshot whose guild reference
is missing, the handler returns with no side effect and no error: the
optional-chain comparison fails the guard before any guild field is
dereferenced, and the result is the no-op effects record. -/
theorem C9_missing_guild_noop (cfg : Config) (env : Env) (member : Member)
    (h : member.guild = none) :
    guildMemberAdd cfg env member = noEffects member := by
  unfold guildMemberAdd tryBody
  rw [h]

/-- Witness for C9 at a guild-less member snapshot. -/
theorem C9_missing_guild_noop_witness :
    guildMemberAdd cfg0 envOk memberNoGuild = noEffects memberNoGuild :=
  C9_missing_guild_noop cfg0 envOk memberNoGuild rfl

/-- Claim C4: if the member's current role set already contains the
target role id, the handler is a no-op (no mutation call, no fetch, no
log); consequently, re-handling the same join event after a successful
first handling — i.e. on the snapshot whose role set is the first
handling's output, which contains the target role id — is a no-op, for
any behaviour `env2` of the external calls on the second run. -/
theorem C4_idempotent (cfg : Config) (env env2 : Env) (member : Member) :
    (member.roleIds.contains cfg.AUTO_ROLE_ID = true →
      guildMemberAdd cfg env member = noEffects member)
    ∧ (cfg.AUTO_ROLE_ID ∈ (guildMemberAdd cfg env member).memberRoles →
      guildMemberAdd cfg env2
          { member with roleIds := (guildMemberAdd cfg env member).memberRoles }
        = noEffects { member with roleIds := (guildMemberAdd cfg env member).memberRoles }) := by
  constructor
  · intro h
    exact guildMemberAdd_hasRole cfg env member h
  · intro hsucc
    exact guildMemberAdd_hasRole cfg env2
      { member with roleIds := (guildMemberAdd cfg env member).memberRoles }
      (by simpa using hsucc)

/-- Witness for C4: a member who already holds the role is skipped, and
a second handling of a freshly assigned member is a no-op. -/
theorem C4_idempotent_witness :
    guildMemberAdd cfg0 envOk memberHas = noEffects memberHas
    ∧ guildMemberAdd cfg0 envAddFails
          { memberM with roleIds := (guildMemberAdd cfg0 envOk memberM).memberRoles }
        = noEffects { memberM with roleIds := (guildMemberAdd cfg0 envOk memberM).memberRoles } :=
  ⟨(C4_idempotent cfg0 envOk envOk memberHas).1 (by decide),
    (C4_idempotent cfg0 envOk envAddFails memberM).2 (by decide)⟩

/-- Claim C2: for a join event in the target guild where the member does
not already hold the role and role resolution succeeds, exactly one
add-role call occurs, it targets the configured role id (under the
fetch contract that a fetch by `AUTO_ROLE_ID` only resolves to a role
with that id), and on success the assignment log names the role and the
member tag. -/
theorem C2_one_add_call (cfg : Config) (env : Env) (member : Member)
    (g : Guild) (n : Nat) (r : Role)
    (hg : member.guild = some g) (ht : g.id = cfg.TARGET_GUILD_ID)
    (hnot : member.roleIds.contains cfg.AUTO_ROLE_ID = false)
    (hrr : resolveRole cfg env g = (n, some r))
    (hFetch : Env.fetchFaithful cfg env) :
    (guildMemberAdd cfg env member).addCalls = [(cfg.AUTO_ROLE_ID, addReason)]
    ∧ (env.addRoleResult = Except.ok () →
        (guildMemberAdd cfg env member).logs
          = [LogEntry.assigned r.name member.userTag]) := by
  have hid : r.id = cfg.AUTO_ROLE_ID :=
    resolveRole_id cfg env g hFetch (by rw [hrr])
  cases ha : env.addRoleResult with
  | ok u =>
    rw [guildMemberAdd_main_ok cfg env member g n r hg ht hnot hrr ha]
    exact ⟨by rw [hid], fun _ => rfl⟩
  | error e =>
    rw [guildMemberAdd_main_error cfg env member g n r e hg ht hnot hrr ha]
    refine ⟨by rw [hid], ?_⟩
    intro hok
    exact Except.noConfusion hok

/-- Witness for C2 on the fetch path: target guild with empty role
cache, fetch resolves the role, add succeeds. -/
theorem C2_one_add_call_witness :
    (guildMemberAdd cfg0 envOk memberMiss).addCalls = [(cfg0.AUTO_ROLE_ID, addReason)]
    ∧ (envOk.addRoleResult = Except.ok () →
        (guildMemberAdd cfg0 envOk memberMiss).logs
          = [LogEntry.assigned roleR.name memberMiss.userTag]) :=
  C2_one_add_call cfg0 envOk memberMiss guildEmptyCache 1 roleR rfl rfl (by decide)
    (by decide)
    (by
      intro r h
      injection h with h2
      subst h2
      rfl)

/-- Claim C5: for a join event in the target guild where role resolution
yields no role, the handler logs exactly the warning naming the missing
role id and the guild name, performs no mutation call, leaves the role
set unchanged, and the try body completes without raising. -/
theorem C5_role_missing (cfg : Config) (env : Env) (member : Member)
    (g : Guild) (n : Nat)
    (hg : member.guild = some g) (ht : g.id = cfg.TARGET_GUILD_ID)
    (hnot : member.roleIds.contains cfg.AUTO_ROLE_ID = false)
    (hrr : resolveRole cfg env g = (n, none)) :
    guildMemberAdd cfg env member =
      { fetchCalls := n, addCalls := [],
        logs := [LogEntry.warnRoleNotFound cfg.AUTO_ROLE_ID g.name],
        memberRoles := member.roleIds }
    ∧ (tryBody cfg env member).2 = Except.ok () := by
  refine ⟨guildMemberAdd_main_none cfg env member g n hg ht hnot hrr, ?_⟩
  rw [tryBody_main cfg env member g hg ht hnot, hrr]

/-- Witness for C5: target guild with empty cache and a fetch that
resolves to nothing. -/
theorem C5_role_missing_witness :
    guildMemberAdd cfg0 envNoRole memberMiss =
      { fetchCalls := 1, addCalls := [],
        logs := [LogEntry.warnRoleNotFound cfg0.AUTO_ROLE_ID guildEmptyCache.name],
        memberRoles := memberMiss.roleIds }
    ∧ (tryBody cfg0 envNoRole memberMiss).2 = Except.ok () :=
  C5_role_missing cfg0 envNoRole memberMiss guildEmptyCache 1 rfl rfl (by decide) (by decide)

/-- Claim C6: whenever the add-role call fails with error `e` and an add
call was made, the inner try body raises exactly `e`, the outer catch
converts it into the error log entry, exactly one add call was made (no
retry), and the member's role set is unchanged; the handler itself
returns a plain effects record, so the error does not propagate. -/
theorem C6_failure_swallowed (cfg : Config) (env : Env) (member : Member) (e : String)
    (he : env.addRoleResult = Except.error e)
    (hadd : (guildMemberAdd cfg env member).addCalls ≠ []) :
    (tryBody cfg env member).2 = Except.error e
    ∧ LogEntry.addFailed e ∈ (guildMemberAdd cfg env member).logs
    ∧ (guildMemberAdd cfg env member).addCalls.length = 1
    ∧ (guildMemberAdd cfg env member).memberRoles = member.roleIds := by
  cases hg : member.guild with
  | none =>
    exact absurd (by rw [guildMemberAdd_guard cfg env member
      (fun g0 hg0 => by rw [hg] at hg0; cases hg0)]; rfl) hadd
  | some g =>
    by_cases hid : g.id = cfg.TARGET_GUILD_ID
    · cases hnot : member.roleIds.contains cfg.AUTO_ROLE_ID with
      | true =>
        exact absurd (by rw [guildMemberAdd_hasRole cfg env member hnot]; rfl) hadd
      | false =>
        cases hrr : resolveRole cfg env g with
        | mk n ro =>
          cases ro with
          | none =>
            exact absurd (by
              rw [guildMemberAdd_main_none cfg env member g n hg hid hnot hrr]) hadd
          | some r =>
            have h1 : (tryBody cfg env member).2 = Except.error e := by
              rw [tryBody_main cfg env member g hg hid hnot, hrr]
              dsimp only
              rw [he]
            rw [guildMemberAdd_main_error cfg env member g n r e hg hid hnot hrr he]
            exact ⟨h1, by simp, by simp, rfl⟩
    · exact absurd (by
        rw [guildMemberAdd_guard cfg env member (fun g0 hg0 => by
          rw [hg] at hg0
          injection hg0 with h2
          subst h2
          exact hid)]
        rfl) hadd

/-- Witness for C6: a member joining the target guild while the add call
rejects with a permissions error. -/
theorem C6_failure_swallowed_witness :
    (tryBody cfg0 envAddFails memberM).2 = Except.error "Missing Permissions"
    ∧ LogEntry.addFailed "Missing Permissions" ∈ (guildMemberAdd cfg0 envAddFails memberM).logs
    ∧ (guildMemberAdd cfg0 envAddFails memberM).addCalls.length = 1
    ∧ (guildMemberAdd cfg0 envAddFails memberM).memberRoles = memberM.roleIds :=
  C6_failure_swallowed cfg0 envAddFails memberM "Missing Permissions" rfl (by decide)

/-- Claim C8: every single handler invocation makes at most one fetch
call and at most one add-role call, whatever the guard outcomes and
whatever the external calls return: no failure mode triggers a retry,
and since the handler is a total function into `Effects`, no failure is
fatal. -/
theorem C8_no_retry (cfg : Config) (env : Env) (member : Member) :
    (guildMemberAdd cfg env member).fetchCalls ≤ 1
    ∧ (guildMemberAdd cfg env member).addCalls.length ≤ 1 := by
  cases hg : member.guild with
  | none =>
    rw [guildMemberAdd_guard cfg env member (fun g0 hg0 => by rw [hg] at hg0; cases hg0)]
    exact ⟨Nat.zero_le 1, Nat.zero_le 1⟩
  | some g =>
    by_cases hid : g.id = cfg.TARGET_GUILD_ID
    · cases hnot : member.roleIds.contains cfg.AUTO_ROLE_ID with
      | true =>
        rw [guildMemberAdd_hasRole cfg env member hnot]
        exact ⟨Nat.zero_le 1, Nat.zero_le 1⟩
      | false =>
        cases hrr : resolveRole cfg env g with
        | mk n ro =>
          have hn : n ≤ 1 := by
            have hle := resolveRole_fst_le cfg env g
            rw [hrr] at hle
            exact hle
          cases ro with
          | none =>
            rw [guildMemberAdd_main_none cfg env member g n hg hid hnot hrr]
            exact ⟨hn, by simp⟩
          | some r =>
            cases ha : env.addRoleResult with
            | ok u =>
              rw [guildMemberAdd_main_ok cfg env member g n r hg hid hnot hrr ha]
              exact ⟨hn, by simp⟩
            | error e =>
              rw [guildMemberAdd_main_error cfg env member g n r e hg hid hnot hrr ha]
              exact ⟨hn, by simp⟩
    · rw [guildMemberAdd_guard cfg env member (fun g0 hg0 => by
        rw [hg] at hg0
        injection hg0 with h2
        subst h2
        exact hid)]
      exact ⟨Nat.zero_le 1, Nat.zero_le 1⟩

/-- Claim C1: for a join event in the target guild, (a) if the handler
emits no failure log (no missing-role warning and no caught error), the
member's resulting role set contains the target role id; (b) if the add
call failed after being attempted, the failure is logged and no retry is
attempted (exactly at most one add call). -/
theorem C1_invariant (cfg : Config) (env : Env) (member : Member) (g : Guild)
    (hg : member.guild = some g) (ht : g.id = cfg.TARGET_GUILD_ID)
    (hFetch : Env.fetchFaithful cfg env) :
    ((∀ l ∈ (guildMemberAdd cfg env member).logs, l.isFailure = false) →
        cfg.AUTO_ROLE_ID ∈ (guildMemberAdd cfg env member).memberRoles)
    ∧ (∀ e, env.addRoleResult = Except.error e →
        (guildMemberAdd cfg env member).addCalls ≠ [] →
          LogEntry.addFailed e ∈ (guildMemberAdd cfg env member).logs
          ∧ (guildMemberAdd cfg env member).addCalls.length ≤ 1) := by
  cases hnot : member.roleIds.contains cfg.AUTO_ROLE_ID with
  | true =>
    rw [guildMemberAdd_hasRole cfg env member hnot]
    refine ⟨fun _ => by simpa using hnot, ?_⟩
    intro e he hne
    exact absurd rfl hne
  | false =>
    cases hrr : resolveRole cfg env g with
    | mk n ro =>
      cases ro with
      | none =>
        rw [guildMemberAdd_main_none cfg env member g n hg ht hnot hrr]
        refine ⟨?_, ?_⟩
        · intro hclean
          have hw := hclean (LogEntry.warnRoleNotFound cfg.AUTO_ROLE_ID g.name) (by simp)
          simp [LogEntry.isFailure] at hw
        · intro e he hne
          exact absurd rfl hne
      | some r =>
        have hid : r.id = cfg.AUTO_ROLE_ID :=
          resolveRole_id cfg env g hFetch (by rw [hrr])
        cases ha : env.addRoleResult with
        | ok u =>
          rw [guildMemberAdd_main_ok cfg env member g n r hg ht hnot hrr ha]
          refine ⟨fun _ => by rw [hid]; exact List.mem_cons_self _ _, ?_⟩
          intro e he hne
          exact Except.noConfusion he
        | error e0 =>
          rw [guildMemberAdd_main_error cfg env member g n r e0 hg ht hnot hrr ha]
          refine ⟨?_, ?_⟩
          · intro hclean
            have hw := hclean (LogEntry.addFailed e0) (by simp)
            simp [LogEntry.isFailure] at hw
          · intro e he hne
            injection he with h2
            subst h2
            exact ⟨by simp, by simp⟩

/-- Witness for C1: a fresh member of the target guild with all external
calls succeeding. -/
theorem C1_invariant_witness :
    ((∀ l ∈ (guildMemberAdd cfg0 envOk memberM).logs, l.isFailure = false) →
        cfg0.AUTO_ROLE_ID ∈ (guildMemberAdd cfg0 envOk memberM).memberRoles)
    ∧ (∀ e, envOk.addRoleResult = Except.error e →
        (guildMemberAdd cfg0 envOk memberM).addCalls ≠ [] →
          LogEntry.addFailed e ∈ (guildMemberAdd cfg0 envOk memberM).logs
          ∧ (guildMemberAdd cfg0 envOk memberM).addCalls.length ≤ 1) :=
  C1_invariant cfg0 envOk memberM guildG rfl rfl (by
    intro r h
    injection h with h2
    subst h2
    rfl)

/-- Counterexample to claim C7: `if (!TOKEN)` tests JavaScript
truthiness, so a token that is present in the environment but equal to
the empty string also aborts startup — termination is not equivalent to
the token's absence. -/
theorem C7_token_abort_counterexample :
    startup peEmptyToken = StartupResult.fatal "Missing DISCORD_TOKEN in environment."
    ∧ peEmptyToken.DISCORD_TOKEN ≠ none := by decide

/-- Claim C7 amended: the process terminates at startup (no client
value and no login token are produced, only the fatal error) if and
only if the authentication token is absent from the environment or set
to the empty string. -/
theorem C7_token_abort_amended (penv : ProcessEnv) :
    (∃ msg, startup penv = StartupResult.fatal msg)
      ↔ (penv.DISCORD_TOKEN = none ∨ penv.DISCORD_TOKEN = some "") := by
  unfold startup
  cases htok : penv.DISCORD_TOKEN with
  | none => simp [jsTruthy]
  | some s =>
    by_cases hs : s = ""
    · subst hs
      simp [jsTruthy, show ("".isEmpty) = true from rfl]
    · have hie : s.isEmpty = false :=
        Bool.eq_false_iff.mpr (by simpa [String.isEmpty_iff] using hs)
      simp [jsTruthy, hs, hie]

/-- Witness for C7 amended at the fully unset environment. -/
theorem C7_token_abort_amended_witness :
    (∃ msg, startup peUnset = StartupResult.fatal msg)
      ↔ (peUnset.DISCORD_TOKEN = none ∨ peUnset.DISCORD_TOKEN = some "") :=
  C7_token_abort_amended peUnset

/-- Counterexample to claim C10: with both optional variables absent but
the token set to the empty string, the process does not start, although
the token is not absent — so it is not only the token's absence that
aborts startup, and variable absence does not by itself guarantee a
start. -/
theorem C10_defaults_counterexample :
    startup peEmptyTokenUnsetVars
      = StartupResult.fatal "Missing DISCORD_TOKEN in environment."
    ∧ peEmptyTokenUnsetVars.DISCORD_TOKEN ≠ none
    ∧ peEmptyTokenUnsetVars.TARGET_GUILD_ID = none
    ∧ peEmptyTokenUnsetVars.AUTO_ROLE_ID = none := by decide

/-- Claim C10 amended: startup aborts exactly when the token is falsy
(absent or empty); when the token is truthy, an absent `TARGET_GUILD_ID`
is substituted by the built-in default guild id and an absent
`AUTO_ROLE_ID` by the built-in default role id, and the process starts. -/
theorem C10_defaults_amended (penv : ProcessEnv) :
    ((∃ msg, startup penv = StartupResult.fatal msg)
        ↔ jsTruthy penv.DISCORD_TOKEN = false)
    ∧ (jsTruthy penv.DISCORD_TOKEN = true → penv.TARGET_GUILD_ID = none →
        ∃ a tok, startup penv
          = StartupResult.started { TARGET_GUILD_ID := defaultGuildId, AUTO_ROLE_ID := a } tok)
    ∧ (jsTruthy penv.DISCORD_TOKEN = true → penv.AUTO_ROLE_ID = none →
        ∃ t tok, startup penv
          = StartupResult.started { TARGET_GUILD_ID := t, AUTO_ROLE_ID := defaultRoleId } tok) := by
  refine ⟨?_, ?_, ?_⟩
  · unfold startup
    cases htok : jsTruthy penv.DISCORD_TOKEN with
    | true => simp
    | false => simp
  · intro htok hT
    refine ⟨envOr penv.AUTO_ROLE_ID defaultRoleId, envOr penv.DISCORD_TOKEN "", ?_⟩
    unfold startup
    rw [if_pos htok, hT]
    rfl
  · intro htok hA
    refine ⟨envOr penv.TARGET_GUILD_ID defaultGuildId, envOr penv.DISCORD_TOKEN "", ?_⟩
    unfold startup
    rw [if_pos htok, hA]
    rfl

/-- Witness for C10 amended at a nonempty token with both optional
variables unset. -/
theorem C10_defaults_amended_witness :
    ((∃ msg, startup peTokenOnly = StartupResult.fatal msg)
        ↔ jsTruthy peTokenOnly.DISCORD_TOKEN = false)
    ∧ (jsTruthy peTokenOnly.DISCORD_TOKEN = true → peTokenOnly.TARGET_GUILD_ID = none →
        ∃ a tok, startup peTokenOnly
          = StartupResult.started { TARGET_GUILD_ID := defaultGuildId, AUTO_ROLE_ID := a } tok)
    ∧ (jsTruthy peTokenOnly.DISCORD_TOKEN = true → peTokenOnly.AUTO_ROLE_ID = none →
        ∃ t tok, startup peTokenOnly
          = StartupResult.started { TARGET_GUILD_ID := t, AUTO_ROLE_ID := defaultRoleId } tok) :=
  C10_defaults_amended peTokenOnly

end AutoRoleBot
